import Mathlib

/-!
Verification of the `iced-text-editor` application core (src/main.rs).

The program is a single-window text editor built on the iced `Application`
pattern: a state struct `Editor`, a `Message` enum, and an `update` reducer.
We embed the state, the message type, and the `update` function shallowly.

External collaborators are embedded by the part of their interface the
program consumes:
 - the iced text-editor widget's `Content` is represented by its text
   (a `String`); `Content::new()` is the empty text and
   `Content::with_text(t)` is `t`;
 - the widget's `Action` is represented by its `is_edit` classification
   together with its effect on the buffer text (`Content::perform`);
 - the file dialogs (`rfd`) and the filesystem (`std::fs`) are represented
   by an explicit environment `FileEnv` recording the outcome each call
   would produce during one `update` step.
-/

namespace IcedEditor

/-- A filesystem path (`std::path::PathBuf`), represented as its string. -/
abbrev Path := String

/-- The iced `widget::text_editor::Action`, embedded by the only two things
`Editor::update` consumes: its `is_edit()` classification and its effect on
the buffer text via `Content::perform`. -/
structure Action where
  is_edit : Bool
  apply : String → String

/-- The iced color `Theme` (`Editor.color_theme`).  The real enumeration is
larger; these constructors include the ones the program mentions. -/
inductive ColorTheme
  | Light
  | Dark
  | GruvboxDark
  | GruvboxLight
  deriving DecidableEq, Repr

/-- The iced `highlighter::Theme` (`Editor.highlighter_theme`). -/
inductive HighlighterTheme
  | SolarizedDark
  | Base16Mocha
  | Base16Ocean
  | InspiredGitHub
  deriving DecidableEq, Repr

-- The iced `widget::text_editor::Content`, embedded as its text.
namespace Content

/-- `Content::new()`: the empty buffer. -/
def new : String := ""

/-- `Content::with_text(t)`: a buffer holding exactly `t`. -/
def with_text (t : String) : String := t

/-- `Content::perform(action)`: the action's effect on the text. -/
def perform (a : Action) (c : String) : String := a.apply c

end Content

/-- The application state `struct Editor` (src/main.rs lines 15-21). -/
structure Editor where
  path : Option Path
  content : String
  dirty : Bool
  color_theme : ColorTheme
  highlighter_theme : HighlighterTheme

/-- The message enumeration `enum Message` (src/main.rs lines 23-31). -/
inductive Message
  | EditorAction (a : Action)
  | ColorThemeChange (t : ColorTheme)
  | HighlighterThemeChange (t : HighlighterTheme)
  | OpenFile
  | NewFile
  | SaveFile

/-- The outcomes the external file collaborators (rfd dialogs, std::fs)
would produce during one `update` step:
 - `pick_file`: result of `rfd::FileDialog::pick_file()`;
 - `read_to_string p`: result of `fs::read_to_string(p).ok()`;
 - `save_file`: result of `rfd::FileDialog::save_file()`;
 - `write p t`: whether `fs::write(p, t)` succeeds. -/
structure FileEnv where
  pick_file : Option Path
  read_to_string : Path → Option String
  save_file : Option Path
  write : Path → String → Bool

/-- `fn open_file()` (src/main.rs lines 194-211): ask the dialog for a path;
when one is chosen, try to read it; on read failure reset the path to
`none`, leaving the contents empty. -/
def open_file (env : FileEnv) : Option Path × String :=
  match env.pick_file with
  | none => (none, "")
  | some p =>
      match env.read_to_string p with
      | some read_contents => (some p, read_contents)
      | none => (none, "")

/-- `fn save_new_file()` (src/main.rs lines 213-217): the save dialog. -/
def save_new_file (env : FileEnv) : Option Path :=
  env.save_file

/-- `Editor::new` (src/main.rs lines 39-50): the startup state. -/
def Editor.new : Editor :=
  { path := none
    content := Content.new
    dirty := true
    color_theme := .GruvboxDark
    highlighter_theme := .Base16Mocha }

/-- `Editor::update` (src/main.rs lines 56-97).  Note the `SaveFile` arm:
the source calls `fs::write(path, text).ok()`, discarding the `Result`,
and then sets `dirty = false` unconditionally. -/
def update (self : Editor) (message : Message) (env : FileEnv) : Editor :=
  match message with
  | .EditorAction action =>
      let self := if action.is_edit then { self with dirty := true } else self
      { self with content := Content.perform action self.content }
  | .OpenFile =>
      let pc := open_file env
      if pc.1.isSome then
        { self with
            path := pc.1
            content := Content.with_text pc.2
            dirty := false }
      else self
  | .NewFile =>
      { self with path := none, content := Content.new }
  | .SaveFile =>
      let self :=
        if self.path.isNone then { self with path := save_new_file env } else self
      match self.path with
      | some p =>
          -- fs::write(self.path, self.content.text()).ok(): result discarded
          let _ := env.write p self.content
          { self with dirty := false }
      | none => self
  | .ColorThemeChange t =>
      { self with color_theme := t }
  | .HighlighterThemeChange t =>
      { self with highlighter_theme := t }

/-- Folding `update` over a list of messages with a fixed environment. -/
def update_all (env : FileEnv) (self : Editor) (msgs : List Message) : Editor :=
  msgs.foldl (fun st m => update st m env) self

/-- The iced `keyboard::Key`: either a character key (carrying the text it
produces) or a named key such as Enter or F1. -/
inductive Key
  | Character (c : String)
  | Named (name : String)
  deriving DecidableEq, Repr

/-- The iced `keyboard::Modifiers`: the four modifier flags. -/
structure Modifiers where
  shift : Bool
  control : Bool
  alt : Bool
  logo : Bool
  deriving DecidableEq, Repr

/-- `Modifiers::command()`: the platform's primary modifier — the logo
("command") key on macOS, the control key elsewhere. -/
def Modifiers.command (macos : Bool) (m : Modifiers) : Bool :=
  if macos then m.logo else m.control

/-- The closure passed to `keyboard::on_key_press` in `Editor::subscription`
(src/main.rs lines 99-109): with the command modifier held, the character
keys "s", "o", "n" map to Save/Open/New; everything else maps to `none`. -/
def on_key_press (macos : Bool) (key_code : Key) (modifiers : Modifiers) :
    Option Message :=
  match key_code with
  | .Character c =>
      if modifiers.command macos then
        -- the source's match on c.to_string().as_str(), as ordered tests
        if c = "s" then some .SaveFile
        else if c = "o" then some .OpenFile
        else if c = "n" then some .NewFile
        else none
      else none
  | .Named _ => none

/-- Split a character list at every occurrence of `sep`; the result always
holds at least one (possibly empty) segment, like `String::split`. -/
def split_on_char (sep : Char) (l : List Char) : List (List Char) :=
  match l with
  | [] => [[]]
  | c :: rest =>
      let r := split_on_char sep rest
      if c = sep then [] :: r
      else
        match r with
        | [] => [[c]]
        | h :: t => (c :: h) :: t

/-- `std::path::Path::file_name`, on our string model of paths: the final
component after splitting on the path separator. -/
def file_name (p : Path) : String :=
  String.mk ((split_on_char ('/') p.data).getLastD [])

/-- `std::path::Path::extension` (the suffix after the final `.` of the
final component): `none` when the name holds no `.`, or begins with its
only `.` (a hidden file such as `.gitignore`). -/
def ext_of (p : Path) : Option String :=
  match split_on_char ('.') (file_name p).data with
  | [] => none
  | [_] => none
  | [[], _] => none
  | parts => (parts.getLast?).map (fun seg => String.mk seg)

/-- The grammar identifier `Editor::view` passes to the highlighter
(src/main.rs lines 116-127):
`self.path.as_ref().and_then(|path| path.extension()?.to_str()).unwrap_or("txt")`
(in our string model of paths, `to_str` always succeeds). -/
def grammar_ext (self : Editor) : String :=
  (self.path.bind (fun p => ext_of p)).getD ("txt")

/-- A highlighting grammar: either the plain-text grammar or a named one. -/
inductive Grammar
  | PlainText
  | Named (name : String)
  deriving DecidableEq, Repr

/-- Modelled from the spec: the external iced/syntect Highlighter resolves
the extension token it is given to a grammar; a token outside its table of
known grammar tokens falls back to the plain-text grammar, and the token
"txt" is the plain-text grammar's own token (so it is not in the table of
named grammars).  The table is the parameter `lookup`. -/
def resolve_grammar (lookup : String → Option Grammar) (token : String) :
    Grammar :=
  (lookup token).getD .PlainText

/-- The grammar the view's highlighter ends up using for state `self`. -/
def view_grammar (lookup : String → Option Grammar) (self : Editor) :
    Grammar :=
  resolve_grammar lookup (grammar_ext self)

/-- The `on_press` handler of the Save button in `Editor::view`
(src/main.rs line 140): `.on_press_maybe(self.dirty.then_some(Message::SaveFile))`. -/
def save_button_on_press (self : Editor) : Option Message :=
  if self.dirty then some .SaveFile else none

/-! Concrete fixtures used by witness and counterexample theorems. -/

/-- An environment in which the dialogs are cancelled, every read fails and
every write fails. -/
def no_env : FileEnv :=
  { pick_file := none
    read_to_string := fun _ => none
    save_file := none
    write := fun _ _ => false }

/-- An environment whose open dialog picks a file that reads successfully. -/
def open_env : FileEnv :=
  { pick_file := some ("src/lib.rs")
    read_to_string := fun _ => some ("pub mod core;")
    save_file := none
    write := fun _ _ => true }

/-- A sample editing action: append the letter a to the buffer. -/
def type_a : Action :=
  { is_edit := true, apply := fun c => c ++ ("a") }

/-- A sample state holding an unsaved change to a named file. -/
def dirty_state : Editor :=
  { path := some ("notes.txt")
    content := "hello"
    dirty := true
    color_theme := .Light
    highlighter_theme := .SolarizedDark }

/-- A sample state viewing a Rust file. -/
def rs_state : Editor :=
  { Editor.new with path := some ("a.rs") }

/-- A sample grammar table for the highlighter: it knows only the token
rs; in particular the plain-text token txt is not a named grammar. -/
def sample_lookup : String → Option Grammar :=
  fun token => if token = "rs" then some (.Named ("Rust")) else none

/-- Modifier sets: control held (the primary modifier off macOS), and no
modifiers at all. -/
def ctrl_mods : Modifiers :=
  { shift := false, control := true, alt := false, logo := false }

/-- The empty modifier set. -/
def plain_mods : Modifiers :=
  { shift := false, control := false, alt := false, logo := false }

/-! Helper lemmas shared by claim theorems. -/

/-- Processing a non-empty sequence of edit actions ends with `dirty = true`:
the last edit sets it, and `perform` never clears it. -/
theorem dirty_after_edits (env : FileEnv) (acts : List Action) (s : Editor)
    (hne : acts ≠ []) (hall : ∀ x ∈ acts, x.is_edit = true) :
    (update_all env s (acts.map Message.EditorAction)).dirty = true := by
  induction acts generalizing s with
  | nil => exact absurd rfl hne
  | cons x rest ih =>
    cases rest with
    | nil =>
        simp [update_all, update, hall x (List.mem_singleton.mpr rfl)]
    | cons y t =>
        have hstep : update_all env s ((x :: y :: t).map Message.EditorAction)
            = update_all env (update s (.EditorAction x) env)
                ((y :: t).map Message.EditorAction) := rfl
        rw [hstep]
        exact ih _ (List.cons_ne_nil y t)
          (fun z hz => hall z (List.mem_cons_of_mem x hz))

/-! The claims. -/

/-- C1 counterexample: in a state with `path = some "notes.txt"` and
`dirty = true`, processing `SaveFile` in an environment whose write fails
ends with `dirty = false`, not `true`: the source discards the result of
`fs::write` and clears the dirty flag unconditionally. -/
theorem save_write_failure_counterexample :
    dirty_state.path = some ("notes.txt") ∧
    dirty_state.dirty = true ∧
    no_env.write ("notes.txt") dirty_state.content = false ∧
    (update dirty_state .SaveFile no_env).dirty = false :=
  ⟨rfl, rfl, rfl, rfl⟩

/-- C1 (amended): for every state with `path = some p`, processing
`SaveFile` sets the dirty flag to false regardless of whether the write
succeeds or fails (the write result is discarded), and leaves the path,
the buffer and both themes unchanged. -/
theorem save_with_path_clears_dirty (s : Editor) (env : FileEnv) (p : Path)
    (hp : s.path = some p) :
    (update s .SaveFile env).path = some p ∧
    (update s .SaveFile env).content = s.content ∧
    (update s .SaveFile env).dirty = false ∧
    (update s .SaveFile env).color_theme = s.color_theme ∧
    (update s .SaveFile env).highlighter_theme = s.highlighter_theme := by
  simp [update, hp]

/-- C1 witness: the amended claim at the counterexample's own input. -/
theorem save_with_path_clears_dirty_witness :
    (update dirty_state .SaveFile no_env).path = some ("notes.txt") ∧
    (update dirty_state .SaveFile no_env).content = dirty_state.content ∧
    (update dirty_state .SaveFile no_env).dirty = false ∧
    (update dirty_state .SaveFile no_env).color_theme = dirty_state.color_theme ∧
    (update dirty_state .SaveFile no_env).highlighter_theme
      = dirty_state.highlighter_theme :=
  save_with_path_clears_dirty dirty_state no_env ("notes.txt") rfl

/-- C2: when the open dialog is cancelled, or it picks a file whose read
fails, processing `OpenFile` leaves the state exactly as it was — in
particular path, buffer content and the dirty flag are unchanged. -/
theorem open_failure_state_unchanged (s : Editor) (env : FileEnv)
    (h : env.pick_file = none ∨
      ∃ p, env.pick_file = some p ∧ env.read_to_string p = none) :
    update s .OpenFile env = s := by
  rcases h with h | ⟨p, hp, hr⟩
  · simp [update, open_file, h]
  · simp [update, open_file, hp, hr]

/-- C2 witness: a cancelled dialog leaves the sample state unchanged. -/
theorem open_failure_state_unchanged_witness :
    update dirty_state .OpenFile no_env = dirty_state :=
  open_failure_state_unchanged dirty_state no_env (Or.inl rfl)

/-- C3: an `EditorAction` carrying an edit action sets the dirty flag and
leaves the path unchanged, and any non-empty sequence of edit actions ends
with `dirty = true`. -/
theorem edit_actions_set_dirty (env : FileEnv) (s : Editor) (a : Action)
    (acts : List Action) (ha : a.is_edit = true) (hne : acts ≠ [])
    (hall : ∀ x ∈ acts, x.is_edit = true) :
    (update s (.EditorAction a) env).dirty = true ∧
    (update s (.EditorAction a) env).path = s.path ∧
    (update_all env s (acts.map Message.EditorAction)).dirty = true :=
  ⟨by simp [update, ha], by simp [update, ha],
   dirty_after_edits env acts s hne hall⟩

/-- C3 witness: typing a letter into the startup state. -/
theorem edit_actions_set_dirty_witness :
    (update Editor.new (.EditorAction type_a) no_env).dirty = true ∧
    (update Editor.new (.EditorAction type_a) no_env).path = Editor.new.path ∧
    (update_all no_env Editor.new ([type_a].map Message.EditorAction)).dirty
      = true :=
  edit_actions_set_dirty no_env Editor.new type_a [type_a] rfl
    (List.cons_ne_nil type_a [])
    (fun x hx => by rw [List.mem_singleton.mp hx]; rfl)

/-- C4: with no path, processing `SaveFile` when the save dialog is
cancelled leaves the state exactly as it was: path stays `none`, and the
dirty flag and buffer are untouched. -/
theorem save_cancel_state_unchanged (s : Editor) (env : FileEnv)
    (hp : s.path = none) (hd : env.save_file = none) :
    update s .SaveFile env = s := by
  cases s with
  | mk path content dirty ct ht =>
      simp only [Editor.path] at hp
      subst hp
      simp [update, save_new_file, hd]

/-- C4 witness: cancelling the save dialog on the startup state. -/
theorem save_cancel_state_unchanged_witness :
    update Editor.new .SaveFile no_env = Editor.new :=
  save_cancel_state_unchanged Editor.new no_env rfl rfl

/-- C5: when the open dialog picks `p` and reading `p` yields `t`,
processing `OpenFile` sets `path = some p`, replaces the buffer wholesale
with `t`, and clears the dirty flag. -/
theorem open_success_sets_state (s : Editor) (env : FileEnv) (p : Path)
    (t : String) (hp : env.pick_file = some p)
    (hr : env.read_to_string p = some t) :
    (update s .OpenFile env).path = some p ∧
    (update s .OpenFile env).content = t ∧
    (update s .OpenFile env).dirty = false := by
  refine ⟨?_, ?_, ?_⟩ <;> simp [update, open_file, Content.with_text, hp, hr]

/-- C5 witness: opening the sample readable file from the dirty state. -/
theorem open_success_sets_state_witness :
    (update dirty_state .OpenFile open_env).path = some ("src/lib.rs") ∧
    (update dirty_state .OpenFile open_env).content = "pub mod core;" ∧
    (update dirty_state .OpenFile open_env).dirty = false :=
  open_success_sets_state dirty_state open_env ("src/lib.rs")
    ("pub mod core;") rfl rfl

/-- C6: on either platform, with the primary ("command") modifier held the
character keys s, o, n map to Save, Open, New; every other (key, modifier)
combination — command not held, or any other key — maps to no message. -/
theorem shortcut_mapping (macos : Bool) :
    (∀ m : Modifiers, m.command macos = true →
        on_key_press macos (.Character ("s")) m = some .SaveFile ∧
        on_key_press macos (.Character ("o")) m = some .OpenFile ∧
        on_key_press macos (.Character ("n")) m = some .NewFile) ∧
    (∀ (k : Key) (m : Modifiers),
        m.command macos = false ∨
          (k ≠ .Character ("s") ∧ k ≠ .Character ("o") ∧ k ≠ .Character ("n")) →
        on_key_press macos k m = none) := by
  constructor
  · intro m hm
    refine ⟨?_, ?_, ?_⟩ <;> simp [on_key_press, hm]
  · intro k m h
    rcases h with h | ⟨h1, h2, h3⟩
    · cases k with
      | Character c => simp [on_key_press, h]
      | Named n => rfl
    · cases k with
      | Named n => rfl
      | Character c =>
          simp only [ne_eq, Key.Character.injEq] at h1 h2 h3
          simp [on_key_press, h1, h2, h3]

/-- C6 witness: control+s saves off macOS, control+x and unmodified s do
nothing. -/
theorem shortcut_mapping_witness :
    on_key_press false (.Character ("s")) ctrl_mods = some .SaveFile ∧
    on_key_press false (.Character ("x")) ctrl_mods = none ∧
    on_key_press false (.Character ("s")) plain_mods = none :=
  ⟨((shortcut_mapping false).1 ctrl_mods rfl).1,
   (shortcut_mapping false).2 (.Character ("x")) ctrl_mods
     (Or.inr ⟨by decide, by decide, by decide⟩),
   (shortcut_mapping false).2 (.Character ("s")) plain_mods (Or.inl rfl)⟩

/-- C7: the token handed to the highlighter is the current path's
file-name suffix, defaulting to txt; for any grammar table in which txt is
the plain-text token, an absent path, a path with no suffix, or an unknown
suffix all resolve to the plain-text grammar, and a present suffix `e`
resolves exactly as the token `e` does. -/
theorem grammar_from_suffix (lookup : String → Option Grammar) (s : Editor)
    (p : Path) (e : String) (htxt : lookup ("txt") = none) :
    (s.path = none → view_grammar lookup s = .PlainText) ∧
    (s.path = some p → ext_of p = none → view_grammar lookup s = .PlainText) ∧
    (s.path = some p → ext_of p = some e → lookup e = none →
      view_grammar lookup s = .PlainText) ∧
    (s.path = some p → ext_of p = some e →
      view_grammar lookup s = resolve_grammar lookup e) := by
  refine ⟨?_, ?_, ?_, ?_⟩
  · intro hp
    simp [view_grammar, grammar_ext, resolve_grammar, hp, htxt]
  · intro hp he
    simp [view_grammar, grammar_ext, resolve_grammar, hp, he, htxt]
  · intro hp he hu
    simp [view_grammar, grammar_ext, resolve_grammar, hp, he, hu]
  · intro hp he
    simp [view_grammar, grammar_ext, resolve_grammar, hp, he]

/-- C7 witness: the startup state (no path) gets the plain-text grammar,
and a state viewing a.rs gets whatever the token rs resolves to. -/
theorem grammar_from_suffix_witness :
    view_grammar sample_lookup Editor.new = .PlainText ∧
    view_grammar sample_lookup rs_state = resolve_grammar sample_lookup ("rs") :=
  ⟨(grammar_from_suffix sample_lookup Editor.new ("a.rs") ("rs") rfl).1 rfl,
   (grammar_from_suffix sample_lookup rs_state ("a.rs") ("rs") rfl).2.2.2
     rfl rfl⟩

/-- C8: processing `NewFile` clears the path and empties the buffer, and
leaves the dirty flag and both theme fields exactly as they were. -/
theorem new_file_resets (s : Editor) (env : FileEnv) :
    (update s .NewFile env).path = none ∧
    (update s .NewFile env).content = Content.new ∧
    (update s .NewFile env).dirty = s.dirty ∧
    (update s .NewFile env).color_theme = s.color_theme ∧
    (update s .NewFile env).highlighter_theme = s.highlighter_theme :=
  ⟨rfl, rfl, rfl, rfl, rfl⟩

/-- C9: the startup state has no path, an empty buffer, and dirty = true. -/
theorem initial_state :
    Editor.new.path = none ∧ Editor.new.content = "" ∧
    Editor.new.dirty = true :=
  ⟨rfl, rfl, rfl⟩

/-- C10: the Save button carries an on-press message exactly when the
dirty flag is true, and emits no message at all when it is false. -/
theorem save_button_iff_dirty (s : Editor) :
    (save_button_on_press s = some .SaveFile ↔ s.dirty = true) ∧
    (save_button_on_press s = none ↔ s.dirty = false) := by
  cases h : s.dirty <;> simp [save_button_on_press, h]

end IcedEditor
